import Mathlib

/-!
Shallow embedding of the Board_Games repository (a C++ framework of
Tic-Tac-Toe variants: an abstract `Board<T>`/`UI<T>`/`Move<T>`/`Player<T>`
contract plus one concrete subclass pair per rule variant), together with
theorems settling the specification claims against the code.

Conventions of the embedding:
* C++ `char` cell values are modelled as `Nat` ASCII codes
  (`'.'` = 46, `'X'` = 88, `'O'` = 79, `' '` = 32, the erase sentinel = 0).
* `int` fields (`n_moves`, coordinates, counters) are modelled as `Int`.
* A grid `vector<vector<char>>` is a `List (List Nat)`.
* Boards whose `update_board` performs an unchecked `board[x][y]` access
  before validating bounds are modelled in an `Option` monad: `none` means
  the C++ code performed an out-of-bounds vector access (undefined
  behaviour), which is distinct from an ordinary `false` return.
* `BoardGame_Classes.h` (the abstract base definitions and `GameManager`)
  is not among the provided sources: the few facts needed from it are
  modelled from the specification and are marked as such.
-/

namespace BoardGames

/-- A cell value: the ASCII code of the C++ `char`. -/
abbrev Cell := Nat

/-- The grid of a board, row major, mirroring `vector<vector<char>>`. -/
abbrev Grid := List (List Cell)

/-- ASCII code of `'.'`, the blank symbol used by most variants. -/
def blank : Cell := 46

/-- C `toupper` on ASCII codes, as applied by the variants to the stored mark. -/
def toupperC (c : Cell) : Cell := if 97 ≤ c ∧ c ≤ 122 then c - 32 else c

/-- Total read of `board[x][y]` (used only after the C++ code has already
established `0 ≤ x < rows ∧ 0 ≤ y < columns`; the default is never reached
on those paths). -/
def cellAt (g : Grid) (x y : Int) : Cell :=
  if 0 ≤ x ∧ 0 ≤ y then (((g.get? x.toNat).getD []).get? y.toNat).getD 0
  else 0

/-- Checked read of `board[x][y]`: `none` models the undefined behaviour of
an out-of-range `vector::operator[]` access in the C++ code. -/
def cellAt? (g : Grid) (x y : Int) : Option Cell :=
  if 0 ≤ x ∧ 0 ≤ y then (g.get? x.toNat).bind fun row => row.get? y.toNat
  else none

/-- Write `board[x][y] = v` (used only under the bounds established by the
C++ code; out of range it leaves the grid unchanged). -/
def setCell (g : Grid) (x y : Int) (v : Cell) : Grid :=
  if 0 ≤ x ∧ 0 ≤ y then
    match g.get? x.toNat with
    | some row => g.set x.toNat (row.set y.toNat v)
    | none => g
  else g

/-- An all-blank grid of the given dimensions, as built by the variant
constructors that loop `cell = blank_symbol`. -/
def blankGrid (r c : Nat) (b : Cell) : Grid :=
  List.replicate r (List.replicate c b)

/-- The C++ bounds test `!(x < 0 || x >= rows || y < 0 || y >= columns)`. -/
def inRange (rows cols x y : Int) : Prop :=
  ¬(x < 0 ∨ x ≥ rows ∨ y < 0 ∨ y ≥ cols)

instance (rows cols x y : Int) : Decidable (inRange rows cols x y) := by
  unfold inRange; infer_instance

/-- Embeds `Move<char>`: row, column and symbol, as produced by the UIs. -/
structure MoveC where
  x : Int
  y : Int
  sym : Cell
deriving DecidableEq, Repr

/-- The part of `Player<char>` the board queries use: its symbol. -/
structure PlayerC where
  sym : Cell
deriving DecidableEq, Repr

/-- Modelled from the spec: the abstract `Board<T>` constructor
(`BoardGame_Classes.h` is not among the provided sources) initialises the
move counter; per the specification, "after construction, `n_moves == 0`". -/
def baseNMoves : Int := 0

/-! ### Memory_Board (Memory.cpp / Memory.h) -/

/-- State of `Memory_Board`: the 3×3 grid and `n_moves`. -/
structure MemoryBoard where
  grid : Grid
  n_moves : Int
deriving DecidableEq, Repr

/-- Embeds `Memory_Board::Memory_Board()`: `Board(3,3)` then every cell set to
`blank_symbol` (`'.'`). -/
def memoryInit : MemoryBoard :=
  { grid := blankGrid 3 3 blank, n_moves := baseNMoves }

/-- Embeds `Memory_Board::update_board` (Memory.cpp, lines 16–35): bounds check
first, then accept when the cell is blank or the symbol is the erase
sentinel `0`; erase decrements `n_moves` and blanks the cell, placement
increments `n_moves` and stores `toupper(mark)`. -/
def memory_update (m : MoveC) (s : MemoryBoard) : Bool × MemoryBoard :=
  if inRange 3 3 m.x m.y ∧ (cellAt s.grid m.x m.y = blank ∨ m.sym = 0) then
    if m.sym = 0 then
      (true, { s with n_moves := s.n_moves - 1, grid := setCell s.grid m.x m.y blank })
    else
      (true, { s with n_moves := s.n_moves + 1, grid := setCell s.grid m.x m.y (toupperC m.sym) })
  else (false, s)

/-- The `all_equal` lambda shared by several variants:
`a == b && b == c && a != blank_symbol`. -/
def all_equal (bl a b c : Cell) : Bool :=
  a == b && b == c && a != bl

/-- Embeds `Memory_Board::is_win`: some row, column or diagonal holds three equal
non-blank symbols equal to the player's. -/
def memory_is_win (s : MemoryBoard) (p : PlayerC) : Bool :=
  let c := fun (i j : Nat) => cellAt s.grid i j
  ((List.range 3).any fun i =>
    (all_equal blank (c i 0) (c i 1) (c i 2) && c i 0 == p.sym) ||
    (all_equal blank (c 0 i) (c 1 i) (c 2 i) && c 0 i == p.sym)) ||
  (all_equal blank (c 0 0) (c 1 1) (c 2 2) && c 1 1 == p.sym) ||
  (all_equal blank (c 0 2) (c 1 1) (c 2 0) && c 1 1 == p.sym)

/-- Embeds `Memory_Board::is_lose`: constantly `false`. -/
def memory_is_lose (_s : MemoryBoard) (_p : PlayerC) : Bool := false

/-- Embeds `Memory_Board::is_draw`: `n_moves == 9 && !is_win(player)`. -/
def memory_is_draw (s : MemoryBoard) (p : PlayerC) : Bool :=
  decide (s.n_moves = 9) && !memory_is_win s p

/-- Embeds `Memory_Board::game_is_over`: `is_win(player) || is_draw(player)`. -/
def memory_game_is_over (s : MemoryBoard) (p : PlayerC) : Bool :=
  memory_is_win s p || memory_is_draw s p

/-- Embeds `Memory_UI::get_move`, COMPUTER path (Memory.cpp, lines 112–116):
`x = rand() % rows; y = rand() % cols;` with no emptiness filtering; the
board is only read for its dimensions, never written. `r1`, `r2` are the
two values drawn from `rand()`. -/
def memory_ui_computer_move (sym : Cell) (r1 r2 : Nat) (b : MemoryBoard) :
    MoveC × MemoryBoard :=
  (⟨(r1 % 3 : Nat), (r2 % 3 : Nat), sym⟩, b)

/-! ### SUS_Board (SUS.h and its implementation file) -/

/-- State of `SUS_Board`: 3×3 grid, `n_moves`, the two sequence counters
`count1` (for `'S'`) and `count2` (for `'U'`), and the last played cell. -/
structure SUSBoard where
  grid : Grid
  n_moves : Int
  count1 : Int
  count2 : Int
  last_row_play : Int
  last_col_play : Int
deriving DecidableEq, Repr

/-- Embeds `SUS_Board::SUS_Board()`: `Board(3,3)`, all cells blank; the counters
start at their in-class initial value 0. -/
def susInit : SUSBoard :=
  { grid := blankGrid 3 3 blank, n_moves := baseNMoves
    count1 := 0, count2 := 0, last_row_play := 0, last_col_play := 0 }

/-- Embeds `SUS_Board::is_win`: `n_moves == 9 && count1 > count2`. -/
def sus_is_win (s : SUSBoard) (_p : PlayerC) : Bool :=
  decide (s.n_moves = 9) && decide (s.count1 > s.count2)

/-- Embeds `SUS_Board::is_lose`: `n_moves == 9 && count1 < count2`. -/
def sus_is_lose (s : SUSBoard) (_p : PlayerC) : Bool :=
  decide (s.n_moves = 9) && decide (s.count1 < s.count2)

/-- Embeds `SUS_Board::is_draw`: `n_moves == 9 && count1 == count2`. -/
def sus_is_draw (s : SUSBoard) (_p : PlayerC) : Bool :=
  decide (s.n_moves = 9) && decide (s.count1 = s.count2)

/-- Embeds `SUS_Board::game_is_over`: `is_win(player) || is_draw(player) || is_lose(player)`. -/
def sus_game_is_over (s : SUSBoard) (p : PlayerC) : Bool :=
  sus_is_win s p || sus_is_draw s p || sus_is_lose s p

/-- Embeds `SUS_UI::get_move`, COMPUTER path: `x = rand() % rows; y = rand() % cols;`
with no emptiness filtering; the board is only read for its dimensions. -/
def sus_ui_computer_move (sym : Cell) (r1 r2 : Nat) (b : SUSBoard) :
    MoveC × SUSBoard :=
  (⟨(r1 % 3 : Nat), (r2 % 3 : Nat), sym⟩, b)

/-! ### CONNECT_Board (connect4.h and its implementation file) -/

/-- State of `CONNECT_Board`: 6×7 grid and `n_moves`. -/
structure ConnectBoard where
  grid : Grid
  n_moves : Int
deriving DecidableEq, Repr

/-- Embeds `CONNECT_Board::CONNECT_Board()`: `Board(6,7)`, all cells blank. -/
def connectInit : ConnectBoard :=
  { grid := blankGrid 6 7 blank, n_moves := baseNMoves }

/-- Embeds `CONNECT_Board::update_board`: bounds check first (early `return false`),
then the shared blank-or-erase acceptance test. -/
def connect_update (m : MoveC) (s : ConnectBoard) : Bool × ConnectBoard :=
  if ¬ inRange 6 7 m.x m.y then (false, s)
  else if cellAt s.grid m.x m.y = blank ∨ m.sym = 0 then
    if m.sym = 0 then
      (true, { s with n_moves := s.n_moves - 1, grid := setCell s.grid m.x m.y blank })
    else
      (true, { s with n_moves := s.n_moves + 1, grid := setCell s.grid m.x m.y (toupperC m.sym) })
  else (false, s)

/-- Embeds `CONNECT_Board::is_win`: four consecutive cells of the player's symbol
horizontally, vertically or on either diagonal. -/
def connect_is_win (s : ConnectBoard) (p : PlayerC) : Bool :=
  let c := fun (i j : Nat) => cellAt s.grid i j
  ((List.range 6).any fun i => (List.range 4).any fun j =>
    c i j == p.sym && c i (j+1) == p.sym && c i (j+2) == p.sym && c i (j+3) == p.sym) ||
  ((List.range 7).any fun j => (List.range 3).any fun i =>
    c i j == p.sym && c (i+1) j == p.sym && c (i+2) j == p.sym && c (i+3) j == p.sym) ||
  ((List.range 3).any fun i => (List.range 4).any fun j =>
    c i j == p.sym && c (i+1) (j+1) == p.sym && c (i+2) (j+2) == p.sym && c (i+3) (j+3) == p.sym) ||
  ((List.range 3).any fun i => (List.range 4).any fun j0 => let j := j0 + 3
    c i j == p.sym && c (i+1) (j-1) == p.sym && c (i+2) (j-2) == p.sym && c (i+3) (j-3) == p.sym)

/-- Embeds `CONNECT_Board::is_lose`: `n_moves == 42 && !is_win(player)`. -/
def connect_is_lose (s : ConnectBoard) (p : PlayerC) : Bool :=
  decide (s.n_moves = 42) && !connect_is_win s p

/-- Embeds `CONNECT_Board::is_draw`: `n_moves == 42 && !is_win(player)`. -/
def connect_is_draw (s : ConnectBoard) (p : PlayerC) : Bool :=
  decide (s.n_moves = 42) && !connect_is_win s p

/-- Embeds `CONNECT_Board::game_is_over`: `is_win(player) || is_draw(player)`. -/
def connect_game_is_over (s : ConnectBoard) (p : PlayerC) : Bool :=
  connect_is_win s p || connect_is_draw s p

/-! ### Pyramid_XO_Board (Pyramid_Tic_Tac_Toe.h and its implementation file) -/

/-- State of `Pyramid_XO_Board`: 3×5 grid and `n_moves`. -/
structure PyramidBoard where
  grid : Grid
  n_moves : Int
deriving DecidableEq, Repr

/-- Embeds `Pyramid_XO_Board::Pyramid_XO_Board()`: `Board(3,5)`, all cells blank. -/
def pyramidInit : PyramidBoard :=
  { grid := blankGrid 3 5 blank, n_moves := baseNMoves }

/-- Embeds `Pyramid_XO_Board::update_board`: bounds check first, then the shared
blank-or-erase acceptance test (rows = 3, columns = 5). -/
def pyramid_update (m : MoveC) (s : PyramidBoard) : Bool × PyramidBoard :=
  if inRange 3 5 m.x m.y ∧ (cellAt s.grid m.x m.y = blank ∨ m.sym = 0) then
    if m.sym = 0 then
      (true, { s with n_moves := s.n_moves - 1, grid := setCell s.grid m.x m.y blank })
    else
      (true, { s with n_moves := s.n_moves + 1, grid := setCell s.grid m.x m.y (toupperC m.sym) })
  else (false, s)

/-- Embeds `Pyramid_XO_Board::is_win`: the pyramid's middle row, centre column,
bottom-row windows and the two diagonals. -/
def pyramid_is_win (s : PyramidBoard) (p : PlayerC) : Bool :=
  let c := fun (i j : Nat) => cellAt s.grid i j
  (all_equal blank (c 1 1) (c 1 2) (c 1 3) && c 1 1 == p.sym) ||
  (all_equal blank (c 0 2) (c 1 2) (c 2 2) && c 0 2 == p.sym) ||
  ((List.range 3).any fun i =>
    all_equal blank (c 2 i) (c 2 (i+1)) (c 2 (i+2)) && c 2 i == p.sym) ||
  (all_equal blank (c 0 2) (c 1 3) (c 2 4) && c 0 2 == p.sym) ||
  (all_equal blank (c 0 2) (c 1 1) (c 2 0) && c 1 1 == p.sym)

/-- Embeds `Pyramid_XO_Board::is_lose`: constantly `false`. -/
def pyramid_is_lose (_s : PyramidBoard) (_p : PlayerC) : Bool := false

/-- Embeds `Pyramid_XO_Board::is_draw`: `n_moves == 9 && !is_win(player)`. -/
def pyramid_is_draw (s : PyramidBoard) (p : PlayerC) : Bool :=
  decide (s.n_moves = 9) && !pyramid_is_win s p

/-- Embeds `Pyramid_XO_Board::game_is_over`: `is_win(player) || is_draw(player)`. -/
def pyramid_game_is_over (s : PyramidBoard) (p : PlayerC) : Bool :=
  pyramid_is_win s p || pyramid_is_draw s p

/-! ### word_XO_Board (Word_TicTacToe.h and its implementation file) -/

/-- A dictionary word, as the list of its character codes. -/
abbrev WordT := List Cell

/-- State of `word_XO_Board`: 3×3 grid, `n_moves`, and the loaded word set. -/
structure WordBoard where
  grid : Grid
  n_moves : Int
  words : List WordT
deriving DecidableEq, Repr

/-- Embeds `word_XO_Board::loadWords`: opens `dic.txt` and inserts every line into
the word set; if the file cannot be opened it throws
`runtime_error("dic.txt not found!")`. The file system is modelled by the
`dict` argument: `none` means the file is absent. -/
def loadWords (dict : Option (List WordT)) : Except String (List WordT) :=
  match dict with
  | none => Except.error "dic.txt not found!"
  | some ws => Except.ok ws

/-- Embeds `word_XO_Board::word_XO_Board()`: `Board(3,3)`, all cells blank, then
`loadWords()`; a thrown `runtime_error` propagates out of the constructor,
so construction either faults or yields a board holding the file's words. -/
def wordBoardInit (dict : Option (List WordT)) : Except String WordBoard :=
  match loadWords dict with
  | Except.error e => Except.error e
  | Except.ok ws => Except.ok { grid := blankGrid 3 3 blank, n_moves := baseNMoves, words := ws }

/-- Embeds `word_XO_Board::checkinFile`: the word or its reverse is in the set. -/
def checkinFile (ws : List WordT) (t : WordT) : Bool :=
  ws.contains t || ws.contains t.reverse

/-- Embeds `word_XO_Board::is_win`: some fully filled row, column or diagonal spells
a dictionary word (forwards or backwards). -/
def word_is_win (s : WordBoard) (_p : PlayerC) : Bool :=
  let c := fun (i j : Nat) => cellAt s.grid i j
  ((List.range 3).any fun i =>
    (!([c i 0, c i 1, c i 2].contains blank) && checkinFile s.words [c i 0, c i 1, c i 2]) ||
    (!([c 0 i, c 1 i, c 2 i].contains blank) && checkinFile s.words [c 0 i, c 1 i, c 2 i])) ||
  (!([c 0 0, c 1 1, c 2 2].contains blank) && checkinFile s.words [c 0 0, c 1 1, c 2 2]) ||
  (!([c 0 2, c 1 1, c 2 0].contains blank) && checkinFile s.words [c 0 2, c 1 1, c 2 0])

/-- Embeds `word_XO_Board::is_lose`: constantly `false`. -/
def word_is_lose (_s : WordBoard) (_p : PlayerC) : Bool := false

/-- Embeds `word_XO_Board::is_draw`: `n_moves == 9 && !is_win(player)`. -/
def word_is_draw (s : WordBoard) (p : PlayerC) : Bool :=
  decide (s.n_moves = 9) && !word_is_win s p

/-- Embeds `word_XO_Board::game_is_over`: `is_win(player) || is_draw(player)`. -/
def word_game_is_over (s : WordBoard) (p : PlayerC) : Bool :=
  word_is_win s p || word_is_draw s p

/-- Embeds `menu()` in main.cpp, case 4 (Word Tic-Tac-Toe), reduced to the part that
can fail: `set_up(new word_XO_UI(), new word_XO_Board())`. Neither `menu`
nor `main` contains a try/catch, so an `Except.error` here models the
`runtime_error` escaping the whole process instead of returning control to
the menu loop. -/
def menuRunWordOnce (dict : Option (List WordT)) : Except String Unit :=
  match wordBoardInit dict with
  | Except.error e => Except.error e
  | Except.ok _ => Except.ok ()

/-! ### XO_4x4_Board (TIC_TAC_TOE_4X4.h / TIC_TAC_TOE_4X4.cpp)

This variant moves already-placed tokens: a move whose symbol equals the
target cell "lifts" the token (`mark = 0`), a following move places it on
an adjacent blank cell. Its `update_board` evaluates `board[x][y]` *before*
its bounds check, so the embedding is `Option`-valued: `none` models the
out-of-bounds access (undefined behaviour). -/

/-- State of `XO_4x4_Board`: 4×4 grid, `n_moves`, and the members
`mark` (initially `1`), `xold`, `yold` (initially `4`). -/
structure XO4Board where
  grid : Grid
  n_moves : Int
  mark : Cell
  xold : Int
  yold : Int
deriving DecidableEq, Repr

/-- Embeds `XO_4x4_Board::XO_4x4_Board()`: `Board(4,4)`; row 0 is pre-filled
`O X O X`, row 3 is pre-filled `X O X O`, rows 1 and 2 are blank. -/
def xo4x4Init : XO4Board :=
  { grid := [[79, 88, 79, 88],
             [blank, blank, blank, blank],
             [blank, blank, blank, blank],
             [88, 79, 88, 79]]
    n_moves := baseNMoves, mark := 1, xold := 4, yold := 4 }

/-- Embeds `XO_4x4_Board::update_board` (TIC_TAC_TOE_4X4.cpp, lines 25–52). The
first statement compares `move->get_symbol()` with `board[x][y]` with no
bounds check, so out-of-range coordinates fault (`none`). Otherwise the
lift / slide / reject chain runs, followed by the shared second `if`. -/
def xo4x4_update (m : MoveC) (s : XO4Board) : Option (Bool × XO4Board) :=
  match cellAt? s.grid m.x m.y with
  | none => none
  | some cell =>
    let branch :=
      if m.sym = cell then
        some { s with mark := 0, xold := m.x, yold := m.y }
      else if cell = blank ∧ s.mark = 0 ∧
          ((m.x = s.xold + 1 ∧ m.y = s.yold) ∨ (m.x = s.xold - 1 ∧ m.y = s.yold) ∨
           (m.y = s.yold + 1 ∧ m.x = s.xold) ∨ (m.y = s.yold - 1 ∧ m.x = s.xold)) then
        some { s with mark := m.sym }
      else none
    match branch with
    | none => some (false, s)
    | some s1 =>
      if inRange 4 4 m.x m.y ∧ (cellAt s1.grid m.x m.y = blank ∨ s1.mark = 0) then
        if s1.mark = 0 then
          some (true, { s1 with n_moves := s1.n_moves - 1, grid := setCell s1.grid m.x m.y blank })
        else
          some (true, { s1 with n_moves := s1.n_moves + 1,
                                grid := setCell s1.grid m.x m.y (toupperC s1.mark) })
      else some (false, s1)

/-- Embeds `XO_4x4_Board::is_win`: three in a row inside the 4×4 grid
(row/column windows plus the eight diagonal windows of the source). -/
def xo4x4_is_win (s : XO4Board) (p : PlayerC) : Bool :=
  let c := fun (i j : Nat) => cellAt s.grid i j
  ((List.range 2).any fun j => (List.range 4).any fun i =>
    (all_equal blank (c i j) (c i (j+1)) (c i (j+2)) && c i j == p.sym) ||
    (all_equal blank (c j i) (c (j+1) i) (c (j+2) i) && c j i == p.sym)) ||
  (all_equal blank (c 0 0) (c 1 1) (c 2 2) && c 1 1 == p.sym) ||
  (all_equal blank (c 0 2) (c 1 1) (c 2 0) && c 1 1 == p.sym) ||
  (all_equal blank (c 1 1) (c 2 2) (c 3 3) && c 2 2 == p.sym) ||
  (all_equal blank (c 0 1) (c 1 2) (c 2 3) && c 1 2 == p.sym) ||
  (all_equal blank (c 1 0) (c 2 1) (c 3 2) && c 2 1 == p.sym) ||
  (all_equal blank (c 0 3) (c 1 2) (c 2 1) && c 1 2 == p.sym) ||
  (all_equal blank (c 1 2) (c 2 1) (c 3 0) && c 2 1 == p.sym) ||
  (all_equal blank (c 1 3) (c 2 2) (c 3 1) && c 3 1 == p.sym)

/-- Embeds `XO_4x4_Board::is_lose`: constantly `false` (defined inline in the header). -/
def xo4x4_is_lose (_s : XO4Board) (_p : PlayerC) : Bool := false

/-- Embeds `XO_4x4_Board::is_draw`: constantly `false`. -/
def xo4x4_is_draw (_s : XO4Board) (_p : PlayerC) : Bool := false

/-- Embeds `XO_4x4_Board::game_is_over`: `is_win(player)` only. -/
def xo4x4_game_is_over (s : XO4Board) (p : PlayerC) : Bool :=
  xo4x4_is_win s p

/-- Embeds `XO_4x4_UI::get_move`, COMPUTER path (TIC_TAC_TOE_4X4.cpp,
lines 118–126): draws a source cell from `rand()`, *calls
`update_board` on the player's board* (lifting the token there), draws a
destination cell, and returns the destination move. `r1 … r4` are the four
values drawn from `rand()`; the updated board is returned alongside the
move, and `none` records a faulting `update_board` (impossible here since
`rand() % 4` is always in range). -/
def xo4x4_ui_computer_move (sym : Cell) (r1 r2 r3 r4 : Nat) (b : XO4Board) :
    Option (MoveC × XO4Board) :=
  match xo4x4_update ⟨(r1 % 4 : Nat), (r2 % 4 : Nat), sym⟩ b with
  | none => none
  | some (_, b') => some (⟨(r3 % 4 : Nat), (r4 % 4 : Nat), sym⟩, b')

/-! ### Inf_XO_Board (the Infinity variant, implementation file) -/

/-- State of `Inf_XO_Board`: 3×3 grid, `n_moves`, and the `Coordinates`
deque (the sliding window of placed coordinates; it starts empty). -/
structure InfBoard where
  grid : Grid
  n_moves : Int
  coords : List (Int × Int)
deriving DecidableEq, Repr

/-- Embeds `Inf_XO_Board::Inf_XO_Board()`: `Board(3,3)`, all cells blank. -/
def infInit : InfBoard :=
  { grid := blankGrid 3 3 blank, n_moves := baseNMoves, coords := [] }

/-- Embeds `Inf_XO_Board::update_board` (implementation file, lines 19–47).
`Coordinates.emplace_back(x, y)` runs *before* the validation `if`, so the
deque grows even when the move is rejected. On an accepted move, once
`n_moves > 1 && !((n_moves-1) % 3)`, the cell at the front of the deque is
blanked and popped (the C++ writes it with unchecked indices; the embedded
`setCell` is a no-op out of range, and the claims below never evaluate an
out-of-range expiry). -/
def inf_update (m : MoveC) (s : InfBoard) : Bool × InfBoard :=
  let s0 := { s with coords := s.coords ++ [(m.x, m.y)] }
  if inRange 3 3 m.x m.y ∧ (cellAt s0.grid m.x m.y = blank ∨ m.sym = 0) then
    let s1 :=
      if m.sym = 0 then
        { s0 with n_moves := s0.n_moves - 1, grid := setCell s0.grid m.x m.y blank }
      else
        { s0 with n_moves := s0.n_moves + 1, grid := setCell s0.grid m.x m.y (toupperC m.sym) }
    let s2 :=
      if s1.n_moves > 1 ∧ (s1.n_moves - 1) % 3 = 0 then
        match s1.coords with
        | [] => s1
        | (a, b) :: t => { s1 with grid := setCell s1.grid a b blank, coords := t }
      else s1
    (true, s2)
  else (false, s0)

/-- Embeds `Inf_XO_Board::is_win`: same three-in-a-row predicate as the classic
3×3 boards. -/
def inf_is_win (s : InfBoard) (p : PlayerC) : Bool :=
  let c := fun (i j : Nat) => cellAt s.grid i j
  ((List.range 3).any fun i =>
    (all_equal blank (c i 0) (c i 1) (c i 2) && c i 0 == p.sym) ||
    (all_equal blank (c 0 i) (c 1 i) (c 2 i) && c 0 i == p.sym)) ||
  (all_equal blank (c 0 0) (c 1 1) (c 2 2) && c 1 1 == p.sym) ||
  (all_equal blank (c 0 2) (c 1 1) (c 2 0) && c 1 1 == p.sym)

/-- Embeds `Inf_XO_Board::is_draw`: `n_moves == 9 && !is_win(player)`. -/
def inf_is_draw (s : InfBoard) (p : PlayerC) : Bool :=
  decide (s.n_moves = 9) && !inf_is_win s p

/-- Embeds `Inf_XO_Board::game_is_over`: `is_win(player) || is_draw(player)`. -/
def inf_game_is_over (s : InfBoard) (p : PlayerC) : Bool :=
  inf_is_win s p || inf_is_draw s p

/-! ### TicTacToe_5x5_board (TicTacToe_5x5.h / TicTacToe_5x5.cpp) -/

/-- State of `TicTacToe_5x5_board`: 5×5 grid, `n_moves`, and the counters
`cntX`, `cntO` (in-class initialised to 0); the `names` list only feeds
console output and is omitted. -/
structure TTT5Board where
  grid : Grid
  n_moves : Int
  cntX : Int
  cntO : Int
deriving DecidableEq, Repr

/-- Embeds `TicTacToe_5x5_board::TicTacToe_5x5_board()`: `Board(5,5)`, all cells
blank. -/
def ttt5Init : TTT5Board :=
  { grid := blankGrid 5 5 blank, n_moves := baseNMoves, cntX := 0, cntO := 0 }

/-- Embeds `TicTacToe_5x5_board::update_board` (TicTacToe_5x5.cpp, lines 12–32):
bounds check first, then the shared blank-or-erase acceptance test. -/
def ttt5_update (m : MoveC) (s : TTT5Board) : Bool × TTT5Board :=
  if inRange 5 5 m.x m.y ∧ (cellAt s.grid m.x m.y = blank ∨ m.sym = 0) then
    if m.sym = 0 then
      (true, { s with n_moves := s.n_moves - 1, grid := setCell s.grid m.x m.y blank })
    else
      (true, { s with n_moves := s.n_moves + 1, grid := setCell s.grid m.x m.y (toupperC m.sym) })
  else (false, s)

/-! ### InverseTicTacToe (Inverse_TicTacToe.h, the misère variant) -/

/-- State of `InverseTicTacToe<char>`: 3×3 grid, `n_moves`, and the
`empty_marker` chosen at construction (default `' '`). -/
structure InvBoard where
  grid : Grid
  n_moves : Int
  empty : Cell
deriving DecidableEq, Repr

/-- Embeds `InverseTicTacToe::InverseTicTacToe(empty_cell = ' ')`: `Board(3,3)`,
all cells set to the empty marker. -/
def inverseInit (e : Cell := 32) : InvBoard :=
  { grid := blankGrid 3 3 e, n_moves := baseNMoves, empty := e }

/-- Embeds `InverseTicTacToe::update_board`: bounds check, occupied check, then
store the symbol verbatim and increment `n_moves`. -/
def inv_update (m : MoveC) (s : InvBoard) : Bool × InvBoard :=
  if m.x < 0 ∨ m.x ≥ 3 ∨ m.y < 0 ∨ m.y ≥ 3 then (false, s)
  else if cellAt s.grid m.x m.y ≠ s.empty then (false, s)
  else (true, { s with grid := setCell s.grid m.x m.y m.sym, n_moves := s.n_moves + 1 })

/-- Embeds `InverseTicTacToe::symbol_has_three_in_row`: false for the empty marker,
otherwise any full row, column or diagonal of `sym`. -/
def inv_symbol_has_three (s : InvBoard) (sym : Cell) : Bool :=
  if sym = s.empty then false
  else
    let c := fun (i j : Nat) => cellAt s.grid i j
    ((List.range 3).any fun r => c r 0 == sym && c r 1 == sym && c r 2 == sym) ||
    ((List.range 3).any fun j => c 0 j == sym && c 1 j == sym && c 2 j == sym) ||
    (c 0 0 == sym && c 1 1 == sym && c 2 2 == sym) ||
    (c 0 2 == sym && c 1 1 == sym && c 2 0 == sym)

/-- The row-major order in which `get_opponent_symbol` scans the 3×3 grid. -/
def rowMajor3 : List (Nat × Nat) :=
  [(0, 0), (0, 1), (0, 2), (1, 0), (1, 1), (1, 2), (2, 0), (2, 1), (2, 2)]

/-- The scanning loop of `get_opponent_symbol`: the first cell value that is
neither the player's symbol nor the empty marker. -/
def invScan (s : InvBoard) (sym : Cell) : List (Nat × Nat) → Option Cell
  | [] => none
  | rc :: t =>
      if cellAt s.grid rc.1 rc.2 ≠ sym ∧ cellAt s.grid rc.1 rc.2 ≠ s.empty
      then some (cellAt s.grid rc.1 rc.2)
      else invScan s sym t

/-- Embeds `InverseTicTacToe::get_opponent_symbol`: scan the board row-major for a
foreign symbol; fall back to the `'X'`/`'O'` convention. -/
def inv_opponent (s : InvBoard) (sym : Cell) : Cell :=
  match invScan s sym rowMajor3 with
  | some cand => cand
  | none => if sym = 88 then 79 else 88

/-- Embeds `InverseTicTacToe::is_win`: the opponent's symbol has three in a row. -/
def inv_is_win (s : InvBoard) (p : PlayerC) : Bool :=
  inv_symbol_has_three s (inv_opponent s p.sym)

/-- Embeds `InverseTicTacToe::is_lose`: the player's own symbol has three in a row. -/
def inv_is_lose (s : InvBoard) (p : PlayerC) : Bool :=
  inv_symbol_has_three s p.sym

/-- Embeds `InverseTicTacToe::is_draw`: neither `'X'` nor `'O'` has three in a row
and the board is full (`n_moves >= rows * columns`). -/
def inv_is_draw (s : InvBoard) (_p : PlayerC) : Bool :=
  if inv_symbol_has_three s 88 then false
  else if inv_symbol_has_three s 79 then false
  else decide (s.n_moves ≥ 9)

/-- Embeds `InverseTicTacToe::game_is_over`: `is_win(p) || is_lose(p) || is_draw(p)`. -/
def inv_game_is_over (s : InvBoard) (p : PlayerC) : Bool :=
  inv_is_win s p || inv_is_lose s p || inv_is_draw s p

/-! ### GameManager (modelled from the spec) -/

/-- The state `GameManager` threads through its turn loop: the board and
`current_player_index`. -/
structure GMState (S : Type) where
  board : S
  current_player_index : Nat
deriving Repr

/-- Modelled from the spec: one iteration of `GameManager::run`'s turn loop
(`BoardGame_Classes.h`, which holds `GameManager`, is not among the provided
sources). Per the specification: call `update_board` on the move obtained
from the UI; if it returns `false`, keep the same `current_player_index`
(the same player is re-asked); if it returns `true`, stop when
`game_is_over` holds, otherwise switch `current_player_index` to the other
player. The returned `Bool` is the loop's termination flag. -/
def gmTurn {S : Type} (update : MoveC → S → Bool × S) (over : S → Bool)
    (mv : MoveC) (st : GMState S) : GMState S × Bool :=
  let r := update mv st.board
  if r.1 then
    if over r.2 then
      ({ board := r.2, current_player_index := st.current_player_index }, true)
    else
      ({ board := r.2, current_player_index := 1 - st.current_player_index }, false)
  else
    ({ board := r.2, current_player_index := st.current_player_index }, false)

/-- All cells of an `r × c` grid hold the value `v`. -/
def allCells (g : Grid) (r c : Nat) (v : Cell) : Bool :=
  (List.range r).all fun i => (List.range c).all fun j => cellAt g i j == v

/-- Shared Boolean fact: a disjunction is unchanged when its last two
disjuncts are swapped. -/
theorem bool_or_right_swap (a b c : Bool) : (a || b || c) = (a || c || b) := by
  cases a <;> cases b <;> cases c <;> rfl

/-- Shared Boolean fact: duplicating the last disjunct changes nothing. -/
theorem bool_or_dup (a b : Bool) : (a || b) = (a || b || b) := by
  cases a <;> cases b <;> rfl

/-! ## Claim theorems -/

/-- C1: the claim that a `false`-returning `update_board` performs no
mutation at all fails on the Infinity variant. On a fresh `Inf_XO_Board`,
place `'X'` at (0,0); a second `update_board` call at the occupied cell
(0,0) returns `false` and leaves the grid and `n_moves` unchanged, but the
`Coordinates` sliding window has nonetheless grown from `[(0,0)]` to
`[(0,0), (0,0)]`, because `Coordinates.emplace_back(x, y)` runs before the
validation test. -/
theorem inf_rejected_move_mutates_window :
    (inf_update ⟨0, 0, 88⟩ (inf_update ⟨0, 0, 88⟩ infInit).2).1 = false ∧
    (inf_update ⟨0, 0, 88⟩ (inf_update ⟨0, 0, 88⟩ infInit).2).2.grid
      = (inf_update ⟨0, 0, 88⟩ infInit).2.grid ∧
    (inf_update ⟨0, 0, 88⟩ (inf_update ⟨0, 0, 88⟩ infInit).2).2.n_moves
      = (inf_update ⟨0, 0, 88⟩ infInit).2.n_moves ∧
    (inf_update ⟨0, 0, 88⟩ infInit).2.coords = [(0, 0)] ∧
    (inf_update ⟨0, 0, 88⟩ (inf_update ⟨0, 0, 88⟩ infInit).2).2.coords
      = [(0, 0), (0, 0)] := by
  decide

/-- C2: the claim that every variant bounds-checks before touching the grid
fails on `XO_4x4_Board`: its `update_board` compares `move->get_symbol()`
with `board[x][y]` before the bounds test, so the out-of-range move
(5, 0) faults (`none`, an out-of-bounds `vector` access) instead of
returning `false`. A bounds-checking variant (`Memory_Board`) handles the
same move by returning `false` with the state unchanged. -/
theorem xo4x4_oob_read_before_bounds_check :
    xo4x4_update ⟨5, 0, 88⟩ xo4x4Init = none ∧
    memory_update ⟨5, 0, 88⟩ memoryInit = (false, memoryInit) := by
  decide

/-- C4: in every embedded variant, `game_is_over(p)` coincides with the
disjunction `is_win(p) ∨ is_lose(p) ∨ is_draw(p)` on every state — also in
the variants whose `game_is_over` body omits `is_lose` (their `is_lose` is
constantly false, or coincides with `is_draw` as in Connect-4) or lists the
three calls in a different order (SUS). -/
theorem game_is_over_is_terminal_disjunction :
    (∀ (s : ConnectBoard) (p : PlayerC),
      connect_game_is_over s p
        = (connect_is_win s p || connect_is_lose s p || connect_is_draw s p)) ∧
    (∀ (s : XO4Board) (p : PlayerC),
      xo4x4_game_is_over s p
        = (xo4x4_is_win s p || xo4x4_is_lose s p || xo4x4_is_draw s p)) ∧
    (∀ (s : SUSBoard) (p : PlayerC),
      sus_game_is_over s p
        = (sus_is_win s p || sus_is_lose s p || sus_is_draw s p)) ∧
    (∀ (s : MemoryBoard) (p : PlayerC),
      memory_game_is_over s p
        = (memory_is_win s p || memory_is_lose s p || memory_is_draw s p)) ∧
    (∀ (s : PyramidBoard) (p : PlayerC),
      pyramid_game_is_over s p
        = (pyramid_is_win s p || pyramid_is_lose s p || pyramid_is_draw s p)) ∧
    (∀ (s : WordBoard) (p : PlayerC),
      word_game_is_over s p
        = (word_is_win s p || word_is_lose s p || word_is_draw s p)) ∧
    (∀ (s : InvBoard) (p : PlayerC),
      inv_game_is_over s p
        = (inv_is_win s p || inv_is_lose s p || inv_is_draw s p)) := by
  refine ⟨fun s p => ?_, fun s p => ?_, fun s p => ?_, fun s p => ?_,
          fun s p => ?_, fun s p => ?_, fun s p => rfl⟩
  · have h : connect_is_lose s p = connect_is_draw s p := rfl
    rw [connect_game_is_over, h]
    exact bool_or_dup _ _
  · simp [xo4x4_game_is_over, xo4x4_is_lose, xo4x4_is_draw]
  · rw [sus_game_is_over]
    exact bool_or_right_swap _ _ _
  · simp [memory_game_is_over, memory_is_lose]
  · simp [pyramid_game_is_over, pyramid_is_lose]
  · simp [word_game_is_over, word_is_lose]

/-- C6: the claim that every variant starts with an all-empty grid fails on
`XO_4x4_Board`: immediately after construction, cell (0, 0) already holds
the player symbol `'O'` (79), not the blank marker. -/
theorem xo4x4_preplaced_cell :
    cellAt xo4x4Init.grid 0 0 = 79 ∧ cellAt xo4x4Init.grid 0 0 ≠ blank := by
  decide

/-- C6 (amended): after construction `n_moves = 0` in every variant, and
every cell holds the variant's empty marker in every variant except
`XO_4x4_Board`, whose constructor pre-places `O X O X` on row 0 and
`X O X O` on row 3 (rows 1 and 2 are blank). -/
theorem init_boards_amended :
    (memoryInit.n_moves = 0 ∧ allCells memoryInit.grid 3 3 blank = true) ∧
    (susInit.n_moves = 0 ∧ allCells susInit.grid 3 3 blank = true) ∧
    (connectInit.n_moves = 0 ∧ allCells connectInit.grid 6 7 blank = true) ∧
    (pyramidInit.n_moves = 0 ∧ allCells pyramidInit.grid 3 5 blank = true) ∧
    (ttt5Init.n_moves = 0 ∧ allCells ttt5Init.grid 5 5 blank = true) ∧
    (infInit.n_moves = 0 ∧ allCells infInit.grid 3 3 blank = true) ∧
    ((inverseInit 32).n_moves = 0 ∧ allCells (inverseInit 32).grid 3 3 32 = true) ∧
    (∀ ws, wordBoardInit (some ws)
      = Except.ok { grid := blankGrid 3 3 blank, n_moves := 0, words := ws }) ∧
    (xo4x4Init.n_moves = 0 ∧
     xo4x4Init.grid = [[79, 88, 79, 88],
                       [blank, blank, blank, blank],
                       [blank, blank, blank, blank],
                       [88, 79, 88, 79]] ∧
     allCells xo4x4Init.grid 4 4 blank = false) := by
  exact ⟨by decide, by decide, by decide, by decide, by decide, by decide, by decide,
         fun ws => rfl, by decide⟩

/-- C10: in the variants sharing the blank-or-erase acceptance test, an
in-range move carrying the erase sentinel (symbol `0`) is always accepted:
it returns `true`, blanks the target cell and decrements `n_moves` — even
when nothing was ever placed there. Consequently a single such call on a
freshly constructed board leaves `n_moves = -1`, so neither `n_moves ≥ 0`
nor "`n_moves` = number of occupied cells" is an invariant. -/
theorem erase_sentinel_always_accepted :
    (∀ (s : MemoryBoard) (x y : Int), inRange 3 3 x y →
      memory_update ⟨x, y, 0⟩ s
        = (true, { s with n_moves := s.n_moves - 1, grid := setCell s.grid x y blank })) ∧
    (∀ (s : TTT5Board) (x y : Int), inRange 5 5 x y →
      ttt5_update ⟨x, y, 0⟩ s
        = (true, { s with n_moves := s.n_moves - 1, grid := setCell s.grid x y blank })) ∧
    (∀ (s : PyramidBoard) (x y : Int), inRange 3 5 x y →
      pyramid_update ⟨x, y, 0⟩ s
        = (true, { s with n_moves := s.n_moves - 1, grid := setCell s.grid x y blank })) ∧
    (∀ (s : InfBoard) (x y : Int), inRange 3 3 x y →
      (inf_update ⟨x, y, 0⟩ s).1 = true ∧
      (inf_update ⟨x, y, 0⟩ s).2.n_moves = s.n_moves - 1) ∧
    (memory_update ⟨0, 0, 0⟩ memoryInit).2.n_moves = -1 ∧
    (ttt5_update ⟨0, 0, 0⟩ ttt5Init).2.n_moves = -1 ∧
    (pyramid_update ⟨0, 0, 0⟩ pyramidInit).2.n_moves = -1 ∧
    (inf_update ⟨0, 0, 0⟩ infInit).2.n_moves = -1 := by
  refine ⟨fun s x y h => ?_, fun s x y h => ?_, fun s x y h => ?_,
          fun s x y h => ⟨?_, ?_⟩, by decide, by decide, by decide, by decide⟩
  · simp [memory_update, h]
  · simp [ttt5_update, h]
  · simp [pyramid_update, h]
  · simp [inf_update, h]
  · obtain ⟨⟨a, b⟩, t, hl⟩ : ∃ p t, s.coords ++ [(x, y)] = p :: t := by
      cases s.coords with
      | nil => exact ⟨(x, y), [], rfl⟩
      | cons p t => exact ⟨p, t ++ [(x, y)], rfl⟩
    simp only [inf_update, h, hl, or_true, true_and, and_true, if_true]
    split <;> simp

/-- C10 witness: the Memory-variant clause applied at the in-range cell
(1, 2) of a freshly constructed board. -/
theorem erase_sentinel_always_accepted_witness :
    memory_update ⟨1, 2, 0⟩ memoryInit
      = (true, { memoryInit with n_moves := memoryInit.n_moves - 1,
                                 grid := setCell memoryInit.grid 1 2 blank }) :=
  erase_sentinel_always_accepted.1 memoryInit 1 2 (by decide)

/-- C3 counterexample: `XO_4x4_UI::get_move` is not mutation-free. For a
COMPUTER player with symbol `'O'` and random draws 0,0,0,0 on a freshly
constructed board, `get_move` itself calls `update_board`, lifting the
pre-placed `'O'` token off cell (0, 0): afterwards the cell is blank and
`n_moves` has become −1, although only `get_move` ran. -/
theorem xo4x4_ui_get_move_mutates_board :
    cellAt xo4x4Init.grid 0 0 = 79 ∧
    (xo4x4_ui_computer_move 79 0 0 0 0 xo4x4Init).map (fun r => cellAt r.2.grid 0 0)
      = some blank ∧
    (xo4x4_ui_computer_move 79 0 0 0 0 xo4x4Init).map (fun r => r.2.n_moves)
      = some (-1) := by
  decide

/-- C3 (amended): `get_move` leaves the board untouched in the variant UIs
that do not call `update_board` (here: the Memory and SUS computer paths,
which only read the board's dimensions), but not in `XO_4x4_UI`, whose
`get_move` calls `update_board` on the player's board to lift the moving
token, so the returned board differs from the one passed in. -/
theorem ui_get_move_frame_amended :
    (∀ (sym : Cell) (r1 r2 : Nat) (b : MemoryBoard),
      (memory_ui_computer_move sym r1 r2 b).2 = b) ∧
    (∀ (sym : Cell) (r1 r2 : Nat) (b : SUSBoard),
      (sus_ui_computer_move sym r1 r2 b).2 = b) ∧
    (xo4x4_ui_computer_move 79 0 0 0 0 xo4x4Init).map (fun r => r.2)
      ≠ some xo4x4Init := by
  exact ⟨fun _ _ _ _ => rfl, fun _ _ _ _ => rfl, by decide⟩

/-- C8 counterexample: the COMPUTER move of `Memory_UI::get_move` is drawn
from all cells, not from the empty ones. On a board whose cell (0, 0) is
occupied by `'X'`, random draws 0,0 make `get_move` return a move targeting
exactly that occupied cell. -/
theorem computer_move_targets_occupied_cell :
    (memory_ui_computer_move 79 0 0 (memory_update ⟨0, 0, 88⟩ memoryInit).2).1
      = ⟨0, 0, 79⟩ ∧
    cellAt (memory_update ⟨0, 0, 88⟩ memoryInit).2.grid 0 0 = 88 ∧
    cellAt (memory_update ⟨0, 0, 88⟩ memoryInit).2.grid 0 0 ≠ blank := by
  decide

/-- C8 (amended): the Memory and SUS computer players pick
`(rand() % rows, rand() % columns)`: the returned move always carries the
player's symbol and in-range coordinates, but ranges over *all* cells —
occupied ones included, as the counterexample shows; such moves are later
rejected by `update_board` and the manager re-asks. -/
theorem computer_move_in_range_unfiltered :
    (∀ (sym : Cell) (r1 r2 : Nat) (b : MemoryBoard),
      inRange 3 3 (memory_ui_computer_move sym r1 r2 b).1.x
          (memory_ui_computer_move sym r1 r2 b).1.y ∧
      (memory_ui_computer_move sym r1 r2 b).1.sym = sym) ∧
    (∀ (sym : Cell) (r1 r2 : Nat) (b : SUSBoard),
      inRange 3 3 (sus_ui_computer_move sym r1 r2 b).1.x
          (sus_ui_computer_move sym r1 r2 b).1.y ∧
      (sus_ui_computer_move sym r1 r2 b).1.sym = sym) := by
  constructor <;> intro sym r1 r2 b <;>
    refine ⟨?_, rfl⟩ <;>
    simp [memory_ui_computer_move, sus_ui_computer_move, inRange] <;>
    omega

/-- C9 counterexample: when `dic.txt` is missing, the `runtime_error`
thrown by `loadWords` inside the `word_XO_Board` constructor is caught
nowhere — neither `menu()` nor `main()` has a handler — so the menu
interaction for the word variant ends in the propagated error instead of
returning control to the menu loop: the failure is fatal for the whole
process, not only for that match. -/
theorem word_dict_failure_not_match_local :
    menuRunWordOnce none = Except.error "dic.txt not found!" ∧
    menuRunWordOnce none ≠ Except.ok () := by
  exact ⟨rfl, by simp [menuRunWordOnce, wordBoardInit, loadWords]⟩

/-- C9 (amended): a missing dictionary is signalled distinctly — the
constructor throws `runtime_error("dic.txt not found!")`, never a boolean
invalid-move result and never a silent empty dictionary (a present file
loads exactly its words) — and the turn loop is never entered; but because
no caller catches the exception, it terminates the entire process rather
than only that match. -/
theorem word_dict_failure_signalling :
    loadWords none = Except.error "dic.txt not found!" ∧
    (∀ ws, loadWords (some ws) = Except.ok ws) ∧
    wordBoardInit none = Except.error "dic.txt not found!" ∧
    menuRunWordOnce none = Except.error "dic.txt not found!" :=
  ⟨rfl, fun _ => rfl, rfl, rfl⟩

/-- C5: in the (spec-modelled) `GameManager` turn step, a rejected move —
`update_board` returning `false` — never advances `current_player_index`:
the same player is asked again. -/
theorem gm_keeps_player_on_rejected_move {S : Type}
    (update : MoveC → S → Bool × S) (over : S → Bool)
    (mv : MoveC) (st : GMState S)
    (h : (update mv st.board).1 = false) :
    (gmTurn update over mv st).1.current_player_index
      = st.current_player_index := by
  simp [gmTurn, h]

/-- C5 witness: on a Memory board whose cell (0, 0) is occupied, the move
(0, 0, `'X'`) is rejected and the manager keeps player index 0. -/
theorem gm_keeps_player_on_rejected_move_witness :
    (memory_update ⟨0, 0, 88⟩ (memory_update ⟨0, 0, 88⟩ memoryInit).2).1 = false ∧
    (gmTurn memory_update (fun b => memory_game_is_over b ⟨88⟩) ⟨0, 0, 88⟩
      { board := (memory_update ⟨0, 0, 88⟩ memoryInit).2,
        current_player_index := 0 }).1.current_player_index = 0 :=
  ⟨by decide,
   gm_keeps_player_on_rejected_move memory_update
     (fun b => memory_game_is_over b ⟨88⟩) ⟨0, 0, 88⟩
     { board := (memory_update ⟨0, 0, 88⟩ memoryInit).2, current_player_index := 0 }
     (by decide)⟩

/-- If a symbol distinct from the empty marker has three in a row, some cell
of the row-major scan order holds it. -/
theorem inv_has_three_exists_cell (s : InvBoard) (sym : Cell)
    (hne : sym ≠ s.empty) (h : inv_symbol_has_three s sym = true) :
    ∃ rc ∈ rowMajor3, cellAt s.grid rc.1 rc.2 = sym := by
  simp only [inv_symbol_has_three, if_neg hne, Bool.or_eq_true, List.any_eq_true,
    List.mem_range, Bool.and_eq_true, beq_iff_eq] at h
  rcases h with (((⟨r, hr, ⟨h0, _⟩, _⟩ | ⟨j, hj, ⟨h0, _⟩, _⟩) | ⟨⟨h0, _⟩, _⟩) | ⟨⟨h0, _⟩, _⟩)
  · exact ⟨(r, 0), by interval_cases r <;> decide, h0⟩
  · exact ⟨(0, j), by interval_cases j <;> decide, h0⟩
  · exact ⟨(0, 0), by decide, h0⟩
  · exact ⟨(0, 2), by decide, h0⟩

/-- The `get_opponent_symbol` scan returns the first player's symbol when
every scanned cell holds one of the two player symbols or the empty marker
and the first player's symbol occurs among them. -/
theorem invScan_finds (s : InvBoard) (p1 p2 : Cell)
    (hne : p1 ≠ p2) (h1 : p1 ≠ s.empty) :
    ∀ l : List (Nat × Nat),
      (∀ rc ∈ l, cellAt s.grid rc.1 rc.2 = p1 ∨ cellAt s.grid rc.1 rc.2 = p2 ∨
                 cellAt s.grid rc.1 rc.2 = s.empty) →
      (∃ rc ∈ l, cellAt s.grid rc.1 rc.2 = p1) →
      invScan s p2 l = some p1
  | [] => by
      rintro _ ⟨rc, hm, _⟩
      simp at hm
  | rc :: t => by
      intro hall hex
      show (if cellAt s.grid rc.1 rc.2 ≠ p2 ∧ cellAt s.grid rc.1 rc.2 ≠ s.empty
            then some (cellAt s.grid rc.1 rc.2)
            else invScan s p2 t) = some p1
      by_cases hc : cellAt s.grid rc.1 rc.2 ≠ p2 ∧ cellAt s.grid rc.1 rc.2 ≠ s.empty
      · rw [if_pos hc]
        rcases hall rc (List.mem_cons_self rc t) with hh | hh | hh
        · rw [hh]
        · exact absurd hh hc.1
        · exact absurd hh hc.2
      · rw [if_neg hc]
        refine invScan_finds s p1 p2 hne h1 t
          (fun x hx => hall x (List.mem_cons_of_mem _ hx)) ?_
        rcases hex with ⟨x, hx, hxp⟩
        rcases List.mem_cons.mp hx with rfl | hx'
        · exfalso
          rcases not_and_or.mp hc with hc1 | hc2
          · exact hne (hxp ▸ not_not.mp hc1)
          · exact h1 (hxp ▸ not_not.mp hc2)
        · exact ⟨x, hx', hxp⟩

/-- C7: in the misère (Inverse) variant, whenever a player's own symbol has
a complete line of three on a grid holding only the two players' distinct
non-empty symbols and empties, `is_lose` is `true` for the line's owner and
`is_win` is `true` for the other player on the same grid state
(`get_opponent_symbol`'s row-major scan recovers the owner's symbol). -/
theorem inverse_line_gives_lose_and_win (s : InvBoard) (p1 p2 : PlayerC)
    (hcells : ∀ rc ∈ rowMajor3,
      cellAt s.grid rc.1 rc.2 = p1.sym ∨ cellAt s.grid rc.1 rc.2 = p2.sym ∨
      cellAt s.grid rc.1 rc.2 = s.empty)
    (hne : p1.sym ≠ p2.sym) (h1 : p1.sym ≠ s.empty) (_h2 : p2.sym ≠ s.empty)
    (hline : inv_symbol_has_three s p1.sym = true) :
    inv_is_lose s p1 = true ∧ inv_is_win s p2 = true := by
  refine ⟨hline, ?_⟩
  have hop : inv_opponent s p2.sym = p1.sym := by
    have hscan := invScan_finds s p1.sym p2.sym hne h1 rowMajor3 hcells
      (inv_has_three_exists_cell s p1.sym h1 hline)
    simp [inv_opponent, hscan]
  show inv_symbol_has_three s (inv_opponent s p2.sym) = true
  rw [hop]
  exact hline

/-- C7 witness: `'X'` owns the whole top row on a grid that otherwise holds
two `'O'` tokens and empties (`' '` = 32): the X-player loses, the O-player
wins on the same state. -/
theorem inverse_line_gives_lose_and_win_witness :
    inv_is_lose ⟨[[88, 88, 88], [79, 79, 32], [32, 32, 32]], 5, 32⟩ ⟨88⟩ = true ∧
    inv_is_win ⟨[[88, 88, 88], [79, 79, 32], [32, 32, 32]], 5, 32⟩ ⟨79⟩ = true :=
  inverse_line_gives_lose_and_win ⟨[[88, 88, 88], [79, 79, 32], [32, 32, 32]], 5, 32⟩
    ⟨88⟩ ⟨79⟩ (by decide) (by decide) (by decide) (by decide) (by decide)

end BoardGames
